import Mathlib

/-!
A shallow embedding of the crustls C binding layer (src/lib.rs) over the
external rustls client-session engine: handle null-safety, the buffered I/O
entry points, configuration reference counting, version-string formatting and
logger initialization. The engine itself is external to the repository and is
modelled as an abstract interface carrying exactly the operations src/lib.rs
invokes on it; state passing is explicit, caller memory regions are lists of
byte values, and a null pointer is `none`.
-/

/-- Modelled from the spec: the closed result enumeration of the module
`error` (src/error.rs is declared by `mod error;` in src/lib.rs but is not
under src/): `Ok`, `Io`, `NullParameter`, plus a partitioned range of
engine-originated codes mapped 1:1 from the engine's failure classification. -/
inductive rustls_result where
  | Ok : rustls_result
  | Io : rustls_result
  | NullParameter : rustls_result
  | Engine : Nat → rustls_result
deriving DecidableEq

/-- Modelled from the spec: an engine-originated failure carries a
classification, which the missing src/error.rs maps to a result code. -/
structure EngineError where
  classification : Nat
deriving DecidableEq

/-- Modelled from the spec: `map_error` from the missing src/error.rs maps
each engine failure classification 1:1 to a distinct non-Ok member of the
result enumeration. -/
def map_error (e : EngineError) : rustls_result :=
  rustls_result.Engine e.classification

/-- The std::io::ErrorKind values src/lib.rs distinguishes: ConnectionAborted
versus anything else. -/
inductive IoErrorKind where
  | ConnectionAborted : IoErrorKind
  | Other : IoErrorKind
deriving DecidableEq, BEq

/-- A std::io::Error as observed by src/lib.rs: its kind and its display text
(the characters of `e.to_string()`). -/
structure IoError where
  kind : IoErrorKind
  msg : List Char
deriving DecidableEq

/-- Whether the first list is an initial segment of the second. -/
def leadsWith : List Char → List Char → Bool
  | [], _ => true
  | _ :: _, [] => false
  | a :: as, b :: bs => a == b && leadsWith as bs

/-- str::contains on display text: does `needle` occur contiguously in the
haystack. -/
def containsSeq (needle : List Char) : List Char → Bool
  | [] => needle.isEmpty
  | c :: rest => leadsWith needle (c :: rest) || containsSeq needle rest

def closeNotifyNeedle : List Char := "CloseNotify".toList

/-- The graceful-closure classification test on line 312 of src/lib.rs:
`e.kind() == ConnectionAborted && e.to_string().contains("CloseNotify")`. -/
def isCloseNotify (e : IoError) : Bool :=
  e.kind == IoErrorKind.ConnectionAborted && containsSeq closeNotifyNeedle e.msg

/-- The interface of the external rustls ClientSession exactly as consumed by
src/lib.rs: construction, the three boolean queries, process_new_packets, the
io::Write and io::Read impls, read_tls and write_tls. Operations that write
into a caller buffer return the updated buffer region alongside the result
and the new session state. -/
structure TlsEngine (C S : Type) where
  newSession : C → List Nat → S
  wantsRead : S → Bool
  wantsWrite : S → Bool
  isHandshaking : S → Bool
  processNewPackets : S → Except EngineError Unit × S
  write : S → List Nat → Except IoError Nat × S
  read : S → List Nat → Except IoError Nat × S × List Nat
  readTls : S → List Nat → Except IoError Nat × S
  writeTls : S → List Nat → Except IoError Nat × S × List Nat

def RUSTLS_CRATE_VERSION : String := "0.19.0"

/-- Modelled from the spec: the binding's own package version (the value of
env "CARGO_PKG_VERSION" comes from Cargo.toml, which is not under src/); the
version string is "crustls/binding-version/rustls/engine-version". The claims
settled here depend only on the string having more bytes than the buffers
involved. -/
def CARGO_PKG_VERSION : String := "0.1.0"

/-- The bytes of the version string formatted on lines 43-47 of src/lib.rs. -/
def versionBytes : List Nat :=
  ("crustls/" ++ CARGO_PKG_VERSION ++ "/rustls/" ++ RUSTLS_CRATE_VERSION).toList.map Char.toNat

/-- The modulus of usize arithmetic on a 64-bit target. -/
def USIZE_MOD : Nat := 2 ^ 64

/-- Release-mode wrapping subtraction on usize, as performed by
`write_buf.len() - 1` on line 49 of src/lib.rs when the length is 0. -/
def wrappingSub (a b : Nat) : Nat :=
  (a % USIZE_MOD + USIZE_MOD - b % USIZE_MOD) % USIZE_MOD

/-- rustls_version (src/lib.rs lines 36-53). `buf` is the caller's writable
region of `len` bytes (`none` for a null pointer). The result is `none` when
the call panics: for a 0-length region, `write_buf.len() - 1` underflows
(panicking at the subtraction in debug mode; wrapping to 2^64-1 in release
mode so that the following `write_buf[..len]` slice write is out of bounds).
Otherwise the result carries the returned count and the region after the
call: the truncated version bytes, a NUL, and the untouched tail. -/
def rustls_version (buf : Option (List Nat)) : Option (Nat × Option (List Nat)) :=
  match buf with
  | none => some (0, none)
  | some wb =>
    let len := min (wrappingSub wb.length 1) versionBytes.length
    if len < wb.length then
      some (len, some (versionBytes.take len ++ [0] ++ wb.drop (len + 1)))
    else
      none

/-- The strong count and liveness of the Arc behind a configuration handle.
`dropped` records that the inner ClientConfig has been deallocated, which
happens when the strong count reaches zero. -/
structure ArcRc where
  strong : Nat
  dropped : Bool
deriving DecidableEq

/-- Arc::clone: increments the strong count. -/
def arcClone (a : ArcRc) : ArcRc := ⟨a.strong + 1, a.dropped⟩

/-- Dropping one Arc owner: decrements the strong count, deallocating the
inner value when the count reaches zero. -/
def arcDrop (a : ArcRc) : ArcRc :=
  ⟨a.strong - 1, a.dropped || (a.strong - 1 == 0)⟩

/-- mem::forget: gives up an owner without running its drop; the strong count
is unchanged. -/
def memForget (a : ArcRc) : ArcRc := a

/-- arc_with_incref_from_raw (src/lib.rs lines 108-113): Arc::from_raw (no
count change), Arc::clone (count + 1), mem::forget of the reconstructed
original (so no decrement happens on exit); the clone is returned as a new
owned reference. Net effect: the strong count rises by exactly one and
nothing is deallocated. -/
def arc_with_incref_from_raw (a : ArcRc) : ArcRc := memForget (arcClone a)

/-- Process-wide logging state: whether the global logger is installed. -/
structure ProcState where
  loggerInit : Bool
deriving DecidableEq

/-- Modelled from the spec: env_logger is the external collaborator providing
process-wide diagnostic-logging initialization; its initializer installs the
global logger on first use and, per its documented one-shot contract, panics
when the global logger is already installed. `none` models the panic. -/
def env_logger_init (p : ProcState) : Option ProcState :=
  if p.loggerInit then none else some ⟨true⟩

/-- rustls_client_config_new (src/lib.rs lines 58-65): builds a ClientConfig
with default trust anchors (opaque here), calls env_logger::init()
unconditionally, and returns an Arc handle with strong count one. `none`
models a panic inside the logger initialization. -/
def rustls_client_config_new (p : ProcState) : Option (ProcState × ArcRc) :=
  match env_logger_init p with
  | none => none
  | some p' => some (p', ⟨1, false⟩)

/-- rustls_client_config_free (src/lib.rs lines 74-93): a null handle is a
diagnostic no-op; otherwise the Arc is reconstructed from the handle and
dropped at scope exit, decrementing the strong count (deallocating at zero). -/
def rustls_client_config_free (config : Option ArcRc) : Option ArcRc :=
  match config with
  | none => none
  | some a => some (arcDrop a)

/-- The effect of rustls_client_session_free (src/lib.rs lines 219-228) on
the retained configuration's reference count: dropping the Box drops the
ClientSession, which drops the Arc it retained at construction. A null handle
is a diagnostic no-op. -/
def rustls_client_session_free_rc (session : Option ArcRc) : Option ArcRc :=
  match session with
  | none => none
  | some a => some (arcDrop a)

/-- The two external name validators consumed by rustls_client_session_new:
the UTF-8 validation performed by CStr::to_str (std) and the DNS-name
validation performed by webpki's DNSNameRef::try_from_ascii_str, both outside
this repository. -/
structure NameValidators where
  utf8Ok : List Nat → Bool
  dnsOk : List Nat → Bool

/-- rustls_client_session_new (src/lib.rs lines 121-166). Arguments: the
configuration handle (`none` = null) together with the current state `a` of
its reference count, the hostname bytes (`none` = null), and the out slot
(`none` = null `session_out`, `some prev` = a slot currently holding `prev`).
Returns `none` when the call crashes — the success path performs
`*session_out = ...` without any null check on `session_out` — and otherwise
the result code, the slot contents after the call, and the reference-count
state after the call. Checks appear in source order: hostname null, config
null, UTF-8 validity, DNS validity. The Arc duplicate taken by
arc_with_incref_from_raw is dropped again on the early-return failure paths
(the local binding goes out of scope), while on success ClientSession::new
clones the Arc for the new session and the local binding's drop at exit
leaves a net increment of one, owned by the session. -/
def rustls_client_session_new {C S : Type} (e : TlsEngine C S) (v : NameValidators)
    (config : Option C) (a : ArcRc) (hostname : Option (List Nat))
    (slot : Option (Option S)) :
    Option (rustls_result × Option (Option S) × ArcRc) :=
  match hostname with
  | none => some (rustls_result.NullParameter, slot, a)
  | some hn =>
    match config with
    | none => some (rustls_result.NullParameter, slot, a)
    | some c =>
      let a1 := arc_with_incref_from_raw a
      if v.utf8Ok hn then
        if v.dnsOk hn then
          let sess := e.newSession c hn
          let a2 := arcDrop (arcClone a1)
          match slot with
          | none => none
          | some _ => some (rustls_result.Ok, some (some sess), a2)
        else some (rustls_result.Io, slot, arcDrop a1)
      else some (rustls_result.Io, slot, arcDrop a1)

/-- rustls_client_session_wants_read (src/lib.rs lines 169-176): false on a
null handle. -/
def rustls_client_session_wants_read {C S : Type} (e : TlsEngine C S)
    (session : Option S) : Bool :=
  match session with
  | some cs => e.wantsRead cs
  | none => false

/-- rustls_client_session_wants_write (src/lib.rs lines 179-186): false on a
null handle. -/
def rustls_client_session_wants_write {C S : Type} (e : TlsEngine C S)
    (session : Option S) : Bool :=
  match session with
  | some cs => e.wantsWrite cs
  | none => false

/-- rustls_client_session_is_handshaking (src/lib.rs lines 189-198): false on
a null handle. -/
def rustls_client_session_is_handshaking {C S : Type} (e : TlsEngine C S)
    (session : Option S) : Bool :=
  match session with
  | some cs => e.isHandshaking cs
  | none => false

/-- rustls_client_session_process_new_packets (src/lib.rs lines 201-214): a
null handle is NullParameter; otherwise the engine processes pending packets
and a failure is mapped by map_error. Returns the code and the session state
after the call. -/
def rustls_client_session_process_new_packets {C S : Type} (e : TlsEngine C S)
    (session : Option S) : rustls_result × Option S :=
  match session with
  | none => (rustls_result.NullParameter, none)
  | some cs =>
    match e.processNewPackets cs with
    | (Except.ok _, cs') => (rustls_result.Ok, some cs')
    | (Except.error err, cs') => (map_error err, some cs')

/-- Observable outcome of one buffered I/O entry point: the result code, the
session state, the caller's buffer region, and the caller's out-count slot
after the call (`none` throughout models a null pointer). -/
structure CallOut (S : Type) where
  ret : rustls_result
  sess : Option S
  buf : Option (List Nat)
  outN : Option Nat

/-- rustls_client_session_write (src/lib.rs lines 237-267): null checks on
session, buf and out_n in source order, then the engine's io::Write runs on
the first `count` bytes of the region; Ok stores the accepted count in the
slot, an engine error returns Io with the slot untouched. -/
def rustls_client_session_write {C S : Type} (e : TlsEngine C S) (session : Option S)
    (buf : Option (List Nat)) (count : Nat) (outN : Option Nat) : CallOut S :=
  match session with
  | none => ⟨rustls_result.NullParameter, none, buf, outN⟩
  | some cs =>
    match buf with
    | none => ⟨rustls_result.NullParameter, some cs, none, outN⟩
    | some b =>
      match outN with
      | none => ⟨rustls_result.NullParameter, some cs, some b, none⟩
      | some n0 =>
        match e.write cs (b.take count) with
        | (Except.ok n, cs') => ⟨rustls_result.Ok, some cs', some b, some n⟩
        | (Except.error _, cs') => ⟨rustls_result.Io, some cs', some b, some n0⟩

/-- rustls_client_session_read (src/lib.rs lines 277-320): null checks in
source order; the destination region's `count` bytes are zero-filled before
the engine's io::Read runs on them; Ok stores the count read; the
ConnectionAborted + "CloseNotify" classified error is converted to Ok with
count 0 (true EOF); any other error returns Io with the slot untouched. In
every branch the buffer region reflects the zero-fill and whatever the engine
wrote over it. -/
def rustls_client_session_read {C S : Type} (e : TlsEngine C S) (session : Option S)
    (buf : Option (List Nat)) (count : Nat) (outN : Option Nat) : CallOut S :=
  match session with
  | none => ⟨rustls_result.NullParameter, none, buf, outN⟩
  | some cs =>
    match buf with
    | none => ⟨rustls_result.NullParameter, some cs, none, outN⟩
    | some b =>
      match outN with
      | none => ⟨rustls_result.NullParameter, some cs, some b, none⟩
      | some n0 =>
        match e.read cs (List.replicate count 0) with
        | (Except.ok n, cs', rb') =>
          ⟨rustls_result.Ok, some cs', some (rb' ++ b.drop count), some n⟩
        | (Except.error ioe, cs', rb') =>
          if isCloseNotify ioe then
            ⟨rustls_result.Ok, some cs', some (rb' ++ b.drop count), some 0⟩
          else
            ⟨rustls_result.Io, some cs', some (rb' ++ b.drop count), some n0⟩

/-- rustls_client_session_read_tls (src/lib.rs lines 331-362): null checks in
source order, then the engine reads TLS bytes from a cursor over the first
`count` bytes of the region; Ok stores the consumed count, an engine error
returns Io with the slot untouched. -/
def rustls_client_session_read_tls {C S : Type} (e : TlsEngine C S) (session : Option S)
    (buf : Option (List Nat)) (count : Nat) (outN : Option Nat) : CallOut S :=
  match session with
  | none => ⟨rustls_result.NullParameter, none, buf, outN⟩
  | some cs =>
    match buf with
    | none => ⟨rustls_result.NullParameter, some cs, none, outN⟩
    | some b =>
      match outN with
      | none => ⟨rustls_result.NullParameter, some cs, some b, none⟩
      | some n0 =>
        match e.readTls cs (b.take count) with
        | (Except.ok n, cs') => ⟨rustls_result.Ok, some cs', some b, some n⟩
        | (Except.error _, cs') => ⟨rustls_result.Io, some cs', some b, some n0⟩

/-- rustls_client_session_write_tls (src/lib.rs lines 369-399): null checks
in source order, then the engine writes queued TLS bytes into the first
`count` bytes of the region; Ok stores the produced count, an engine error
returns Io with the slot untouched. -/
def rustls_client_session_write_tls {C S : Type} (e : TlsEngine C S) (session : Option S)
    (buf : Option (List Nat)) (count : Nat) (outN : Option Nat) : CallOut S :=
  match session with
  | none => ⟨rustls_result.NullParameter, none, buf, outN⟩
  | some cs =>
    match buf with
    | none => ⟨rustls_result.NullParameter, some cs, none, outN⟩
    | some b =>
      match outN with
      | none => ⟨rustls_result.NullParameter, some cs, some b, none⟩
      | some n0 =>
        match e.writeTls cs (b.take count) with
        | (Except.ok n, cs', ob') =>
          ⟨rustls_result.Ok, some cs', some (ob' ++ b.drop count), some n⟩
        | (Except.error _, cs', ob') =>
          ⟨rustls_result.Io, some cs', some (ob' ++ b.drop count), some n0⟩

/-- ASCII bytes are valid UTF-8: a sound concrete stand-in for CStr::to_str
validation, used to instantiate theorems at concrete inputs. -/
def asciiUtf8Ok (bs : List Nat) : Bool := bs.all fun b => decide (b < 128)

/-- Modelled from the spec: a DNS-compatible identifier consists of letters,
digits, hyphens and dots; a concrete stand-in for webpki's name validation
used to instantiate theorems at concrete inputs (a space, for example, is
rejected). -/
def dnsByteOk (b : Nat) : Bool :=
  decide (48 ≤ b ∧ b ≤ 57) || decide (65 ≤ b ∧ b ≤ 90) ||
    decide (97 ≤ b ∧ b ≤ 122) || b == 45 || b == 46

def simpleDnsOk (bs : List Nat) : Bool := !bs.isEmpty && bs.all dnsByteOk

def asciiValidators : NameValidators := ⟨asciiUtf8Ok, simpleDnsOk⟩

def exampleHost : List Nat := "example.com".toList.map Char.toNat

def badHost : List Nat := "bad host".toList.map Char.toNat

/-- A trivial concrete engine for instantiating theorems: every operation
succeeds and zero-length transfers report zero bytes. -/
def unitEngine : TlsEngine Unit Unit where
  newSession := fun _ _ => ()
  wantsRead := fun _ => false
  wantsWrite := fun _ => false
  isHandshaking := fun _ => false
  processNewPackets := fun s => (Except.ok (), s)
  write := fun s b => (Except.ok b.length, s)
  read := fun s b => (Except.ok 0, s, b)
  readTls := fun s b => (Except.ok b.length, s)
  writeTls := fun s b => (Except.ok 0, s, b)

def closeMsg : List Char := "received fatal alert: CloseNotify".toList

/-- A concrete engine whose plaintext read permanently reports the benign
CloseNotify condition. -/
def closedEngine : TlsEngine Unit Unit :=
  { unitEngine with
    read := fun s b => (Except.error ⟨IoErrorKind.ConnectionAborted, closeMsg⟩, s, b) }

/-- A concrete engine whose plaintext read fails with an error that does not
carry the CloseNotify classification. -/
def abortEngine : TlsEngine Unit Unit :=
  { unitEngine with
    read := fun s b =>
      (Except.error ⟨IoErrorKind.ConnectionAborted, "broken pipe".toList⟩, s, b) }

/-- The session state after one receive-plaintext call of capacity `count`
(the engine read always sees the zero-filled region of that length). -/
def readState {C S : Type} (e : TlsEngine C S) (count : Nat) (s : S) : S :=
  (e.read s (List.replicate count 0)).2.1

/-- The session state after a sequence of receive-plaintext calls with the
given capacities. -/
def iterReadState {C S : Type} (e : TlsEngine C S) : List Nat → S → S
  | [], s => s
  | c :: cs, s => iterReadState e cs (readState e c s)

/-- C1 counterexample: rustls_client_session_new does not validate the
out-handle slot. With a valid configuration and hostname and a null
`session_out`, the call reaches `*session_out = Box::into_raw(b)` and
dereferences the null pointer (modelled by a `none` outcome) instead of
returning NullParameter as the claim states. -/
theorem session_new_null_out_slot_crashes :
    rustls_client_session_new unitEngine asciiValidators (some ()) ⟨1, false⟩
      (some exampleHost) none = none := by
  decide

/-- C1 (amended): null-argument safety of the public operations. The boolean
queries return false on a null session handle; process_new_packets, write,
read, read_tls and write_tls return NullParameter on any null required
argument (handle, buffer, or out-count slot); rustls_client_session_new
returns NullParameter on a null hostname or a null configuration handle. The
out-handle slot of rustls_client_session_new is not validated (see the
counterexample). -/
theorem null_argument_safety : ∀ (C S : Type) (e : TlsEngine C S)
    (v : NameValidators) (s : S) (b : List Nat) (count : Nat)
    (buf : Option (List Nat)) (outN : Option Nat) (a : ArcRc)
    (cfg : Option C) (slot : Option (Option S)),
    rustls_client_session_wants_read e (none : Option S) = false ∧
    rustls_client_session_wants_write e (none : Option S) = false ∧
    rustls_client_session_is_handshaking e (none : Option S) = false ∧
    (rustls_client_session_process_new_packets e (none : Option S)).1
      = rustls_result.NullParameter ∧
    (rustls_client_session_write e (none : Option S) buf count outN).ret
      = rustls_result.NullParameter ∧
    (rustls_client_session_write e (some s) none count outN).ret
      = rustls_result.NullParameter ∧
    (rustls_client_session_write e (some s) (some b) count none).ret
      = rustls_result.NullParameter ∧
    (rustls_client_session_read e (none : Option S) buf count outN).ret
      = rustls_result.NullParameter ∧
    (rustls_client_session_read e (some s) none count outN).ret
      = rustls_result.NullParameter ∧
    (rustls_client_session_read e (some s) (some b) count none).ret
      = rustls_result.NullParameter ∧
    (rustls_client_session_read_tls e (none : Option S) buf count outN).ret
      = rustls_result.NullParameter ∧
    (rustls_client_session_read_tls e (some s) none count outN).ret
      = rustls_result.NullParameter ∧
    (rustls_client_session_read_tls e (some s) (some b) count none).ret
      = rustls_result.NullParameter ∧
    (rustls_client_session_write_tls e (none : Option S) buf count outN).ret
      = rustls_result.NullParameter ∧
    (rustls_client_session_write_tls e (some s) none count outN).ret
      = rustls_result.NullParameter ∧
    (rustls_client_session_write_tls e (some s) (some b) count none).ret
      = rustls_result.NullParameter ∧
    rustls_client_session_new e v cfg a none slot
      = some (rustls_result.NullParameter, slot, a) ∧
    rustls_client_session_new e v (none : Option C) a (some b) slot
      = some (rustls_result.NullParameter, slot, a) :=
  fun _ _ _ _ _ _ _ _ _ _ _ _ =>
    ⟨rfl, rfl, rfl, rfl, rfl, rfl, rfl, rfl, rfl, rfl, rfl, rfl, rfl, rfl,
      rfl, rfl, rfl, rfl⟩

/-- C10: a null buffer pointer with requested length 0 on a live session
returns NullParameter from all four buffer operations — the null check
precedes any consideration of the length, so (null buffer, length 0) is not
treated as a legal zero-length transfer. -/
theorem null_buffer_zero_length : ∀ (C S : Type) (e : TlsEngine C S) (s : S)
    (outN : Option Nat),
    (rustls_client_session_write e (some s) none 0 outN).ret
      = rustls_result.NullParameter ∧
    (rustls_client_session_read e (some s) none 0 outN).ret
      = rustls_result.NullParameter ∧
    (rustls_client_session_read_tls e (some s) none 0 outN).ret
      = rustls_result.NullParameter ∧
    (rustls_client_session_write_tls e (some s) none 0 outN).ret
      = rustls_result.NullParameter :=
  fun _ _ _ _ _ => ⟨rfl, rfl, rfl, rfl⟩

/-- C7: receive-plaintext zero-fills the destination before the engine read.
For every engine, session state and prior buffer contents, the destination
region after the call is exactly what the engine's read produced from the
all-zero region of length `count` (followed by the untouched bytes beyond
`count`): the outcome does not depend on the caller's previous buffer
contents, and any byte the engine read leaves untouched is zero — in the Ok,
graceful-closure and error branches alike. -/
theorem read_zero_fill : ∀ (C S : Type) (e : TlsEngine C S) (s : S)
    (b : List Nat) (count n0 : Nat),
    (rustls_client_session_read e (some s) (some b) count (some n0)).buf
      = some ((e.read s (List.replicate count 0)).2.2 ++ b.drop count) := by
  intro C S e s b count n0
  rcases hr : e.read s (List.replicate count 0) with ⟨r1, cs', rb'⟩
  cases r1 with
  | ok n => simp [rustls_client_session_read, hr]
  | error ioe =>
    by_cases hc : isCloseNotify ioe = true
    · simp [rustls_client_session_read, hr, hc]
    · simp [rustls_client_session_read, hr, hc]

/-- C5: rustls_version at the claim's inputs. A null buffer returns 0 and
writes nothing; a 5-byte buffer receives the 4-byte payload "crus" plus a
trailing NUL and the call returns 4; but a 0-byte non-null buffer does not
return 0 — `write_buf.len() - 1` underflows, so the call panics (debug:
overflow panic; release: wrap to 2^64-1 followed by an out-of-bounds slice
write), modelled by the `none` outcome. -/
theorem rustls_version_eval :
    rustls_version none = some (0, none) ∧
    rustls_version (some [55, 55, 55, 55, 55])
      = some (4, some [99, 114, 117, 115, 0]) ∧
    rustls_version (some []) = none := by
  refine ⟨rfl, ?_, ?_⟩ <;> decide

/-- C8: logging initialization is not once-only. rustls_client_config_new
invokes env_logger::init() unconditionally on every call; the first
construction in a process succeeds and installs the logger, and the second
construction re-runs the one-shot initializer, which panics (the `none`
outcome) instead of being an idempotent no-op as the claim states. -/
theorem config_new_logger_reruns :
    rustls_client_config_new ⟨false⟩ = some (⟨true⟩, ⟨1, false⟩) ∧
    rustls_client_config_new ⟨true⟩ = none :=
  ⟨rfl, rfl⟩

/-- C2: graceful closure. (a) If, from every state in a set `P` closed under
the engine's read transition, the engine's plaintext read fails with the
ConnectionAborted + "CloseNotify" classified error, then the
receive-plaintext call from the state reached after any sequence of prior
receive-plaintext calls returns Ok with out-count 0 — the signal itself and
every subsequent call behave as true end-of-stream, never a failure code.
(b) Any engine read error not matching that classification is returned as
the Io failure code. -/
theorem graceful_closure_eof : ∀ (C S : Type) (e : TlsEngine C S),
    (∀ P : S → Prop,
      (∀ s buf, P s → ∃ ioe, (e.read s buf).1 = Except.error ioe ∧
          isCloseNotify ioe = true ∧ P (e.read s buf).2.1) →
      ∀ s, P s → ∀ (prior : List Nat) (b : List Nat) (count n0 : Nat),
        (rustls_client_session_read e (some (iterReadState e prior s)) (some b)
            count (some n0)).ret = rustls_result.Ok ∧
        (rustls_client_session_read e (some (iterReadState e prior s)) (some b)
            count (some n0)).outN = some 0) ∧
    (∀ (s : S) (b : List Nat) (count n0 : Nat) (ioe : IoError),
      (e.read s (List.replicate count 0)).1 = Except.error ioe →
      isCloseNotify ioe = false →
      (rustls_client_session_read e (some s) (some b) count (some n0)).ret
        = rustls_result.Io) := by
  intro C S e
  constructor
  · intro P H s hPs prior b count n0
    have key : ∀ (pr : List Nat) (s0 : S), P s0 → P (iterReadState e pr s0) := by
      intro pr
      induction pr with
      | nil => intro s0 h0; exact h0
      | cons c cs ih =>
        intro s0 h0
        obtain ⟨ioe, _, _, hP⟩ := H s0 (List.replicate c 0) h0
        exact ih _ hP
    obtain ⟨ioe, h1, h2, _⟩ := H (iterReadState e prior s) (List.replicate count 0)
      (key prior s hPs)
    rcases hr : e.read (iterReadState e prior s) (List.replicate count 0)
      with ⟨r1, cs', rb'⟩
    rw [hr] at h1
    have h1' : r1 = Except.error ioe := h1
    subst h1'
    constructor <;> simp [rustls_client_session_read, hr, h2]
  · intro s b count n0 ioe h1 h2
    rcases hr : e.read s (List.replicate count 0) with ⟨r1, cs', rb'⟩
    rw [hr] at h1
    have h1' : r1 = Except.error ioe := h1
    subst h1'
    simp [rustls_client_session_read, hr, h2]

/-- Witness for graceful_closure_eof at concrete engines: at the closed
engine the receive-plaintext call made after one prior call still returns Ok
with out-count 0, and at the abort engine (a ConnectionAborted error without
the CloseNotify text) the call returns Io. -/
theorem graceful_closure_eof_witness :
    ((rustls_client_session_read closedEngine
          (some (iterReadState closedEngine [4] ())) (some [9, 9]) 2 (some 7)).ret
        = rustls_result.Ok ∧
      (rustls_client_session_read closedEngine
          (some (iterReadState closedEngine [4] ())) (some [9, 9]) 2 (some 7)).outN
        = some 0) ∧
    (rustls_client_session_read abortEngine (some ()) (some [9, 9]) 2 (some 7)).ret
      = rustls_result.Io :=
  ⟨(graceful_closure_eof Unit Unit closedEngine).1 (fun _ => True)
      (fun s buf _ =>
        ⟨⟨IoErrorKind.ConnectionAborted, closeMsg⟩, rfl, by decide, trivial⟩)
      () trivial [4] [9, 9] 2 7,
    (graceful_closure_eof Unit Unit abortEngine).2 () [9, 9] 2 7
      ⟨IoErrorKind.ConnectionAborted, "broken pipe".toList⟩ rfl (by decide)⟩

/-- C3: configuration reference counting. arc_with_incref_from_raw raises the
strong count by exactly one without deallocating; a successful
rustls_client_session_new leaves the configuration's count exactly one higher
(the duplicate owned by the new session, deliberately not dropped at exit);
and in the concrete lifecycle — create configuration, create a session from
it, caller frees its configuration handle — the configuration is still alive
(count one, not deallocated), and it is deallocated exactly when the session,
the last owner, is freed. -/
theorem config_refcount_lifecycle :
    (∀ a : ArcRc, arc_with_incref_from_raw a = ⟨a.strong + 1, a.dropped⟩) ∧
    (∀ (C S : Type) (e : TlsEngine C S) (v : NameValidators) (c : C) (a : ArcRc)
        (hn : List Nat) (prev : Option S),
      v.utf8Ok hn = true → v.dnsOk hn = true →
      rustls_client_session_new e v (some c) a (some hn) (some prev)
        = some (rustls_result.Ok, some (some (e.newSession c hn)),
            ⟨a.strong + 1, a.dropped⟩)) ∧
    (rustls_client_config_new ⟨false⟩ = some (⟨true⟩, ⟨1, false⟩) ∧
      rustls_client_session_new unitEngine asciiValidators (some ()) ⟨1, false⟩
          (some exampleHost) (some none)
        = some (rustls_result.Ok, some (some ()), ⟨2, false⟩) ∧
      rustls_client_config_free (some ⟨2, false⟩) = some ⟨1, false⟩ ∧
      rustls_client_session_free_rc (some ⟨1, false⟩) = some ⟨0, true⟩) := by
  refine ⟨fun a => rfl, ?_, rfl, by decide, rfl, rfl⟩
  intro C S e v c a hn prev hu hd
  cases a with
  | mk n d =>
    simp [rustls_client_session_new, hu, hd, arc_with_incref_from_raw,
      memForget, arcClone, arcDrop]

/-- Witness for config_refcount_lifecycle: a successful session creation from
a configuration whose strong count is 5 leaves the count at exactly 6. -/
theorem config_refcount_lifecycle_witness :
    rustls_client_session_new unitEngine asciiValidators (some ()) ⟨5, false⟩
        (some exampleHost) (some none)
      = some (rustls_result.Ok, some (some ()), ⟨6, false⟩) :=
  config_refcount_lifecycle.2.1 Unit Unit unitEngine asciiValidators () ⟨5, false⟩
    exampleHost none (by decide) (by decide)

/-- C4: the out-handle slot is written exactly on Ok. Whenever
rustls_client_session_new returns a result code at all (it crashes rather
than returning when `session_out` is null on the success path), a non-Ok code
leaves the slot exactly as it was, and an Ok return implies the inputs were
non-null and the slot now holds exactly the freshly constructed session for
that configuration and validated hostname. -/
theorem session_new_out_slot_atomic : ∀ (C S : Type) (e : TlsEngine C S)
    (v : NameValidators) (cfg : Option C) (a : ArcRc)
    (hostname : Option (List Nat)) (slot : Option (Option S))
    (ret : rustls_result) (slot' : Option (Option S)) (a' : ArcRc),
    rustls_client_session_new e v cfg a hostname slot = some (ret, slot', a') →
    (ret ≠ rustls_result.Ok → slot' = slot) ∧
    (ret = rustls_result.Ok →
      ∃ c hn, cfg = some c ∧ hostname = some hn ∧ slot ≠ none ∧
        slot' = some (some (e.newSession c hn))) := by
  intro C S e v cfg a hostname slot ret slot' a' h
  cases hostname with
  | none =>
    simp only [rustls_client_session_new, Option.some.injEq, Prod.mk.injEq] at h
    obtain ⟨h1, h2, h3⟩ := h
    subst h1
    exact ⟨fun _ => h2.symm, fun hOk => absurd hOk (by decide)⟩
  | some hn =>
    cases cfg with
    | none =>
      simp only [rustls_client_session_new, Option.some.injEq, Prod.mk.injEq] at h
      obtain ⟨h1, h2, h3⟩ := h
      subst h1
      exact ⟨fun _ => h2.symm, fun hOk => absurd hOk (by decide)⟩
    | some c =>
      cases hu : v.utf8Ok hn with
      | false =>
        simp only [rustls_client_session_new, hu, Bool.false_eq_true, if_false,
          Option.some.injEq, Prod.mk.injEq] at h
        obtain ⟨h1, h2, h3⟩ := h
        subst h1
        exact ⟨fun _ => h2.symm, fun hOk => absurd hOk (by decide)⟩
      | true =>
        cases hd : v.dnsOk hn with
        | false =>
          simp only [rustls_client_session_new, hu, hd, if_true,
            Bool.false_eq_true, if_false, Option.some.injEq, Prod.mk.injEq] at h
          obtain ⟨h1, h2, h3⟩ := h
          subst h1
          exact ⟨fun _ => h2.symm, fun hOk => absurd hOk (by decide)⟩
        | true =>
          cases slot with
          | none => simp [rustls_client_session_new, hu, hd] at h
          | some prev =>
            simp only [rustls_client_session_new, hu, hd, if_true,
              Option.some.injEq, Prod.mk.injEq] at h
            obtain ⟨h1, h2, h3⟩ := h
            subst h1
            refine ⟨fun hne => absurd rfl hne, fun _ => ⟨c, hn, rfl, rfl, ?_, h2.symm⟩⟩
            simp

/-- Witness for session_new_out_slot_atomic: a hostname containing a space is
rejected by the DNS-name validation, the call returns Io, and the out slot
(here holding `none`) is exactly as it was. -/
theorem session_new_out_slot_atomic_witness :
    (rustls_result.Io ≠ rustls_result.Ok →
      (some none : Option (Option Unit)) = some none) ∧
    (rustls_result.Io = rustls_result.Ok →
      ∃ c hn, (some () : Option Unit) = some c ∧
        (some badHost : Option (List Nat)) = some hn ∧
        (some none : Option (Option Unit)) ≠ none ∧
        some none = some (some (unitEngine.newSession c hn))) :=
  session_new_out_slot_atomic Unit Unit unitEngine asciiValidators (some ())
    ⟨1, false⟩ (some badHost) (some none) rustls_result.Io (some none) ⟨1, false⟩
    (by decide)

/-- C6: zero-length buffer neutrality. Under the engine's io contract that a
zero-length transfer reports zero bytes (the std Read/Write convention that
src/lib.rs relies on, documented for read_tls on lines 327-328), each of the
four buffer operations called with count 0 and non-null arguments returns Ok
and stores 0 in the out-count slot, never an error. -/
theorem zero_length_buffer_ok : ∀ (C S : Type) (e : TlsEngine C S) (s : S)
    (b : List Nat) (n0 : Nat),
    ((e.write s []).1 = Except.ok 0 →
      (rustls_client_session_write e (some s) (some b) 0 (some n0)).ret
          = rustls_result.Ok ∧
      (rustls_client_session_write e (some s) (some b) 0 (some n0)).outN
          = some 0) ∧
    ((e.read s []).1 = Except.ok 0 →
      (rustls_client_session_read e (some s) (some b) 0 (some n0)).ret
          = rustls_result.Ok ∧
      (rustls_client_session_read e (some s) (some b) 0 (some n0)).outN
          = some 0) ∧
    ((e.readTls s []).1 = Except.ok 0 →
      (rustls_client_session_read_tls e (some s) (some b) 0 (some n0)).ret
          = rustls_result.Ok ∧
      (rustls_client_session_read_tls e (some s) (some b) 0 (some n0)).outN
          = some 0) ∧
    ((e.writeTls s []).1 = Except.ok 0 →
      (rustls_client_session_write_tls e (some s) (some b) 0 (some n0)).ret
          = rustls_result.Ok ∧
      (rustls_client_session_write_tls e (some s) (some b) 0 (some n0)).outN
          = some 0) := by
  intro C S e s b n0
  refine ⟨?_, ?_, ?_, ?_⟩
  · intro h
    rcases hw : e.write s [] with ⟨r1, s'⟩
    rw [hw] at h
    have h' : r1 = Except.ok 0 := h
    subst h'
    constructor <;> simp [rustls_client_session_write, hw]
  · intro h
    rcases hw : e.read s [] with ⟨r1, s', b'⟩
    rw [hw] at h
    have h' : r1 = Except.ok 0 := h
    subst h'
    constructor <;> simp [rustls_client_session_read, hw]
  · intro h
    rcases hw : e.readTls s [] with ⟨r1, s'⟩
    rw [hw] at h
    have h' : r1 = Except.ok 0 := h
    subst h'
    constructor <;> simp [rustls_client_session_read_tls, hw]
  · intro h
    rcases hw : e.writeTls s [] with ⟨r1, s', b'⟩
    rw [hw] at h
    have h' : r1 = Except.ok 0 := h
    subst h'
    constructor <;> simp [rustls_client_session_write_tls, hw]

/-- Witness for zero_length_buffer_ok at the concrete trivial engine. -/
theorem zero_length_buffer_ok_witness :
    (rustls_client_session_write unitEngine (some ()) (some [1, 2]) 0 (some 9)).ret
        = rustls_result.Ok ∧
    (rustls_client_session_write unitEngine (some ()) (some [1, 2]) 0 (some 9)).outN
        = some 0 :=
  (zero_length_buffer_ok Unit Unit unitEngine () [1, 2] 9).1 rfl

/-- C9: the out-count slot is untouched on every non-Ok return of the four
buffer operations; it is written only on the Ok paths (including the
graceful-closure path of receive-plaintext, which returns Ok). -/
theorem out_slot_unchanged_on_failure : ∀ (C S : Type) (e : TlsEngine C S)
    (session : Option S) (buf : Option (List Nat)) (count : Nat)
    (outN : Option Nat),
    ((rustls_client_session_write e session buf count outN).ret
        ≠ rustls_result.Ok →
      (rustls_client_session_write e session buf count outN).outN = outN) ∧
    ((rustls_client_session_read e session buf count outN).ret
        ≠ rustls_result.Ok →
      (rustls_client_session_read e session buf count outN).outN = outN) ∧
    ((rustls_client_session_read_tls e session buf count outN).ret
        ≠ rustls_result.Ok →
      (rustls_client_session_read_tls e session buf count outN).outN = outN) ∧
    ((rustls_client_session_write_tls e session buf count outN).ret
        ≠ rustls_result.Ok →
      (rustls_client_session_write_tls e session buf count outN).outN = outN) := by
  intro C S e session buf count outN
  refine ⟨?_, ?_, ?_, ?_⟩
  · cases session with
    | none => intro _; rfl
    | some cs =>
      cases buf with
      | none => intro _; rfl
      | some b =>
        cases outN with
        | none => intro _; rfl
        | some n0 =>
          rcases hw : e.write cs (b.take count) with ⟨r1, cs'⟩
          cases r1 with
          | ok n => simp [rustls_client_session_write, hw]
          | error ioe => simp [rustls_client_session_write, hw]
  · cases session with
    | none => intro _; rfl
    | some cs =>
      cases buf with
      | none => intro _; rfl
      | some b =>
        cases outN with
        | none => intro _; rfl
        | some n0 =>
          rcases hw : e.read cs (List.replicate count 0) with ⟨r1, cs', rb'⟩
          cases r1 with
          | ok n => simp [rustls_client_session_read, hw]
          | error ioe =>
            by_cases hc : isCloseNotify ioe = true
            · simp [rustls_client_session_read, hw, hc]
            · simp [rustls_client_session_read, hw, hc]
  · cases session with
    | none => intro _; rfl
    | some cs =>
      cases buf with
      | none => intro _; rfl
      | some b =>
        cases outN with
        | none => intro _; rfl
        | some n0 =>
          rcases hw : e.readTls cs (b.take count) with ⟨r1, cs'⟩
          cases r1 with
          | ok n => simp [rustls_client_session_read_tls, hw]
          | error ioe => simp [rustls_client_session_read_tls, hw]
  · cases session with
    | none => intro _; rfl
    | some cs =>
      cases buf with
      | none => intro _; rfl
      | some b =>
        cases outN with
        | none => intro _; rfl
        | some n0 =>
          rcases hw : e.writeTls cs (b.take count) with ⟨r1, cs', ob'⟩
          cases r1 with
          | ok n => simp [rustls_client_session_write_tls, hw]
          | error ioe => simp [rustls_client_session_write_tls, hw]

/-- Witness for out_slot_unchanged_on_failure: a null session handle returns
NullParameter and the out slot keeps its previous contents. -/
theorem out_slot_unchanged_on_failure_witness :
    (rustls_client_session_write unitEngine (none : Option Unit) (some [1]) 1
        (some 3)).outN = some 3 :=
  (out_slot_unchanged_on_failure Unit Unit unitEngine none (some [1]) 1
      (some 3)).1 (by decide)
